import Mathlib

/-!
Verification of the voice-conversion job pipeline of Usada-VC
(`commands/conversion` module).

The JavaScript module is shallowly embedded: pure helpers become Lean
functions; the stateful pipeline threads an explicit `JobState` (a model of
the filesystem entries written by the job plus a trace of observable effects),
and every external effect (the HTTP `fetch`, `fs.mkdirSync`, the `ffprobe`
duration probe, `child_process.exec`, `fs.readdirSync`) is an oracle supplied
by an `Env` record, so that each run of the embedded pipeline is a pure
function of the interaction, the oracles and the starting state.  Thrown
JavaScript `Error`s become `Except String` values carrying the exact message
strings of the source, and `try/catch/finally` becomes the explicit control
flow of `execute`.
-/

namespace UsadaVC

/-- A remote Discord attachment: a URL plus its declared filename. -/
structure Attachment where
  url : String
  name : String
deriving DecidableEq

/-- The typed options carried by a `/conversion` interaction:
`source`/`target` attachments (required), the `singing` boolean (required),
and the optional `diffusion_steps` and `semi_tone_shift` integers
(`none` models a JavaScript `null` from `getInteger`). -/
structure Interaction where
  source : Attachment
  target : Attachment
  singing : Bool
  diffusionSteps : Option Int
  semiToneShift : Option Int
deriving DecidableEq

/-- The result of a successful `fetch`: the HTTP success flag (`response.ok`,
i.e. whether the status is in the 2xx range) and the response body bytes. -/
structure FetchResponse where
  ok : Bool
  body : List Nat
deriving DecidableEq

/-- Observable external effects performed by a job, recorded in order. -/
inductive Event where
  | mkdirAttempt (path : String)
  | fetchUrl (url : String)
  | writeFile (path : String)
  | probe (path : String)
  | execCmd (cmd : String)
  | removeDir (path : String)
deriving DecidableEq

/-- The oracles for every external dependency of the pipeline:
`tempEnv` is `process.env.TEMP` (`""` models an unset or empty variable,
both falsy in JavaScript), `cwd` is `process.cwd()`, `uuid n` is the result
of the n-th `uuidv4()` call of the job, `mkdirResult` tells whether
`fs.mkdirSync` succeeds on a path, `fetchResult` is the outcome of `fetch`
on a URL (`.error` models a rejected promise, i.e. a network failure —
note `fetch` resolves normally on non-2xx statuses), `probeDuration` is the
parsed `ffprobe` duration of a local file (modelled as a rational),
`execResult` is the outcome of `child_process.exec` on a command line, and
`readdir` is the entry listing `fs.readdirSync` returns for a directory
after the external process ran. -/
structure Env where
  tempEnv : String
  cwd : String
  uuid : Nat → String
  mkdirResult : String → Except String Unit
  fetchResult : String → Except String FetchResponse
  probeDuration : String → Except String ℚ
  execResult : String → Except String Unit
  readdir : String → List String

/-- The mutable state of one job: how many `uuidv4()` calls happened,
which files the job itself wrote (path and bytes), and the trace of
observable effects. -/
structure JobState where
  uuidCount : Nat
  fs : List (String × List Nat)
  events : List Event
deriving DecidableEq

/-- Model of `path.join(a, b)`, with a fixed separator (the separator character is
irrelevant to every property proved here). -/
def pathJoin (a b : String) : String :=
  a ++ "/" ++ b

/-- Valid audio file extensions (`VALID_AUDIO_EXTENSIONS`). -/
def VALID_AUDIO_EXTENSIONS : List String := [".wav"]

/-- Maximum allowed audio duration in seconds (`MAX_AUDIO_DURATION`). -/
def MAX_AUDIO_DURATION : ℚ := 30

/-- Default diffusion steps for singing mode. -/
def DEFAULT_SINGING_DIFFUSION_STEPS : Int := 60

/-- Default diffusion steps for non-singing mode. -/
def DEFAULT_NON_SINGING_DIFFUSION_STEPS : Int := 25

/-- Function `determineDiffusionSteps(singing, diffusionSteps)`: the user value when
present (`some`), otherwise 60 in singing mode and 25 otherwise. -/
def determineDiffusionSteps (singing : Bool) (diffusionSteps : Option Int) : Int :=
  match singing, diffusionSteps with
  | true, none => DEFAULT_SINGING_DIFFUSION_STEPS
  | false, none => DEFAULT_NON_SINGING_DIFFUSION_STEPS
  | _, some v => v

/-- The extension test of `validateAudioFile`:
`VALID_AUDIO_EXTENSIONS.some((ext) => file.name.toLowerCase().endsWith(ext))`.
`toLowerCase` is modelled by `Char.toLower` (faithful on the ASCII names the
allow-list compares against) and `endsWith` by a list suffix test on the
character data. -/
def extensionOk (name : String) : Bool :=
  VALID_AUDIO_EXTENSIONS.any fun ext =>
    List.isSuffixOf ext.data (name.data.map Char.toLower)

/-- Function `validateAudioFile(file)`: throws `'Invalid audio file format.'` when the
declared filename does not end (case-insensitively) with a valid extension. -/
def validateAudioFile (file : Attachment) : Except String Unit :=
  if extensionOk file.name then Except.ok () else
    Except.error "Invalid audio file format."

/-- Function `downloadFile(url, dir, prefix)`: awaits `fetch(url)` (a rejected fetch
propagates its error; the HTTP status of a resolved response is not
inspected), then writes the body to `dir/{prefix}_{uuidv4()}.wav` and returns
that path. -/
def downloadFile (env : Env) (url dir pfx : String) (st : JobState) :
    JobState × Except String String :=
  match env.fetchResult url with
  | Except.error e =>
      ({ st with events := st.events ++ [Event.fetchUrl url] }, Except.error e)
  | Except.ok response =>
      let filePath := pathJoin dir (pfx ++ "_" ++ env.uuid st.uuidCount ++ ".wav")
      ({ st with
          uuidCount := st.uuidCount + 1,
          fs := st.fs ++ [(filePath, response.body)],
          events := st.events ++ [Event.fetchUrl url, Event.writeFile filePath] },
        Except.ok filePath)

/-- Function `getAudioDuration(filePath)`: runs the `ffprobe` oracle on the file and
returns its parsed duration (or the probe's rejection). -/
def getAudioDuration (env : Env) (filePath : String) (st : JobState) :
    JobState × Except String ℚ :=
  ({ st with events := st.events ++ [Event.probe filePath] },
    env.probeDuration filePath)

/-- Function `validateAudioDuration(filePath, fileName)`: probes the duration and
throws when it exceeds `MAX_AUDIO_DURATION` (the thrown message interpolates
the constant, here written out as `30`). -/
def validateAudioDuration (env : Env) (filePath fileName : String) (st : JobState) :
    JobState × Except String Unit :=
  match getAudioDuration env filePath st with
  | (st, Except.error e) => (st, Except.error e)
  | (st, Except.ok duration) =>
      if duration > MAX_AUDIO_DURATION then
        (st, Except.error ("The " ++ fileName ++
          " audio file exceeds the maximum duration of 30 seconds."))
      else (st, Except.ok ())

/-- The record returned by a successful `processInteractionOptions`. -/
structure ConvOptions where
  sourcePath : String
  targetPath : String
  singing : Bool
  diffusionSteps : Int
  semiToneShift : Int
deriving DecidableEq

/-- Function `processInteractionOptions(interaction, tempDir)`: reads the typed
options (`semi_tone_shift` defaulted through `|| 0`), validates both
extensions, rejects a nonzero shift outside singing mode, resolves the
diffusion steps, downloads source then target, then validates the duration
of source then target; the first failure aborts with its error. -/
def processInteractionOptions (env : Env) (interaction : Interaction)
    (tempDir : String) (st : JobState) : JobState × Except String ConvOptions :=
  let source := interaction.source
  let target := interaction.target
  let singing := interaction.singing
  let semiToneShift := interaction.semiToneShift.getD 0
  match validateAudioFile source with
  | Except.error e => (st, Except.error e)
  | Except.ok _ =>
  match validateAudioFile target with
  | Except.error e => (st, Except.error e)
  | Except.ok _ =>
  if !singing && (semiToneShift != 0) then
    (st, Except.error "Semi-tone shift can only be used with singing mode.")
  else
    let diffusionSteps := determineDiffusionSteps singing interaction.diffusionSteps
    match downloadFile env source.url tempDir "source" st with
    | (st, Except.error e) => (st, Except.error e)
    | (st, Except.ok sourcePath) =>
    match downloadFile env target.url tempDir "target" st with
    | (st, Except.error e) => (st, Except.error e)
    | (st, Except.ok targetPath) =>
    match validateAudioDuration env sourcePath "source" st with
    | (st, Except.error e) => (st, Except.error e)
    | (st, Except.ok _) =>
    match validateAudioDuration env targetPath "target" st with
    | (st, Except.error e) => (st, Except.error e)
    | (st, Except.ok _) =>
      (st, Except.ok ⟨sourcePath, targetPath, singing, diffusionSteps, semiToneShift⟩)

/-- Expression `process.env.TEMP || 'C:\\Windows\\Temp'` (an empty or unset
variable is falsy). -/
def tempRoot (env : Env) : String :=
  if env.tempEnv = "" then "C:\\Windows\\Temp" else env.tempEnv

/-- The directory name `createTempDir` builds for the next job:
`path.join(TEMP, 'discord-bot-temp', uuidv4())`. -/
def tempDirName (env : Env) (st : JobState) : String :=
  pathJoin (pathJoin (tempRoot env) "discord-bot-temp") (env.uuid st.uuidCount)

/-- Function `createTempDir()`: builds the unique directory path and runs
`fs.mkdirSync(tempDir, { recursive: true })`, returning the path or
propagating the thrown filesystem error. -/
def createTempDir (env : Env) (st : JobState) : JobState × Except String String :=
  let tempDir := tempDirName env st
  let st := { st with
      uuidCount := st.uuidCount + 1,
      events := st.events ++ [Event.mkdirAttempt tempDir] }
  match env.mkdirResult tempDir with
  | Except.error e => (st, Except.error e)
  | Except.ok _ => (st, Except.ok tempDir)

/-- Whether `p` lies inside the directory `dir` (the paths the job writes
under a directory all have it as a textual prefix). -/
def underDir (dir p : String) : Bool :=
  List.isPrefixOf dir.data p.data

/-- Function `cleanupTempDir(dir)`: for a truthy (nonempty) path runs
`fs.rmSync(dir, { recursive: true, force: true })`, which removes the whole
tree rooted at `dir` and, thanks to `force: true`, returns normally even if
the path no longer exists — modelled as a total function deleting every
filesystem entry under `dir`.  For a falsy (empty) path it does nothing. -/
def cleanupTempDir (dir : String) (st : JobState) : JobState :=
  if dir ≠ "" then
    { st with
        fs := st.fs.filter fun f => !underDir dir f.1,
        events := st.events ++ [Event.removeDir dir] }
  else st

/-- The argument array `command` assembled by `buildConversionCommand`
before `command.join(' ')`: the quoted interpreter and script paths, the
six fixed arguments, and the mode-dependent suffix pushed at the end. -/
def buildConversionArgs (cwd sourcePath targetPath outputDir : String)
    (singing : Bool) (diffusionSteps semiToneShift : Int) : List String :=
  let pythonPath :=
    pathJoin (pathJoin (pathJoin (pathJoin (pathJoin cwd "conversion") "seed")
      "env") "Scripts") "python.exe"
  let scriptPath :=
    pathJoin (pathJoin (pathJoin cwd "conversion") "seed") "inference.py"
  let command := [
    "\"" ++ pythonPath ++ "\"", "\"" ++ scriptPath ++ "\"",
    "--source \"" ++ sourcePath ++ "\"",
    "--target \"" ++ targetPath ++ "\"",
    "--output \"" ++ outputDir ++ "\"",
    "--diffusion-steps " ++ toString diffusionSteps,
    "--length-adjust 1.0",
    "--inference-cfg-rate 0.7"]
  if singing then
    command ++ ["--f0-condition true", "--semi-tone-shift " ++ toString semiToneShift]
  else
    command ++ ["--auto-f0-adjust true"]

/-- Function `buildConversionCommand(...)`: the argument array joined with spaces. -/
def buildConversionCommand (cwd sourcePath targetPath outputDir : String)
    (singing : Bool) (diffusionSteps semiToneShift : Int) : String :=
  String.intercalate " "
    (buildConversionArgs cwd sourcePath targetPath outputDir singing
      diffusionSteps semiToneShift)

/-- Test `file.startsWith('vc_')`, on the character data. -/
def startsWithVC (file : String) : Bool :=
  List.isPrefixOf "vc_".data file.data

/-- Function `executeConversion(command, interaction, tempDir)`: runs the command
(propagating an execution error), then scans `fs.readdirSync(tempDir)` with
`.find((file) => file.startsWith('vc_'))`; throws
`'Output file not found.'` when no entry matches, otherwise replies with the
joined path of the first match. -/
def executeConversion (env : Env) (command tempDir : String) (st : JobState) :
    JobState × Except String String :=
  let st := { st with events := st.events ++ [Event.execCmd command] }
  match env.execResult command with
  | Except.error e => (st, Except.error e)
  | Except.ok _ =>
    match (env.readdir tempDir).find? startsWithVC with
    | none => (st, Except.error "Output file not found.")
    | some outputFile => (st, Except.ok (pathJoin tempDir outputFile))

/-- The body of `execute`'s `try` block after `createTempDir` succeeded:
process the options, build the command, run the conversion; the value of a
success is the output file path attached to the success reply. -/
def runPipeline (env : Env) (interaction : Interaction) (tempDir : String)
    (st : JobState) : JobState × Except String String :=
  match processInteractionOptions env interaction tempDir st with
  | (st, Except.error e) => (st, Except.error e)
  | (st, Except.ok opts) =>
      let command := buildConversionCommand env.cwd opts.sourcePath
        opts.targetPath tempDir opts.singing opts.diffusionSteps opts.semiToneShift
      executeConversion env command tempDir st

/-- The single terminal reply a job edits into its deferred acknowledgment. -/
inductive Reply where
  | success (filePath : String)
  | failure (message : String)
deriving DecidableEq

/-- Function `execute(interaction)`: `tempDir` starts as the falsy `''`; the `try`
block assigns it from `createTempDir` and runs the pipeline; the `catch`
turns any thrown error into an error reply; the `finally` always runs
`cleanupTempDir(tempDir)` — on the current value of `tempDir`, which is
still `''` when `createTempDir` itself threw. -/
def execute (env : Env) (interaction : Interaction) (st0 : JobState) :
    JobState × Reply :=
  match createTempDir env st0 with
  | (st, Except.error e) => (cleanupTempDir "" st, Reply.failure e)
  | (st, Except.ok tempDir) =>
    match runPipeline env interaction tempDir st with
    | (st, Except.error e) => (cleanupTempDir tempDir st, Reply.failure e)
    | (st, Except.ok outputPath) => (cleanupTempDir tempDir st, Reply.success outputPath)

instance {ε α : Type} [DecidableEq ε] [DecidableEq α] : DecidableEq (Except ε α) :=
  fun x y =>
    match x, y with
    | Except.error a, Except.error b =>
        if h : a = b then Decidable.isTrue (congrArg Except.error h)
        else Decidable.isFalse fun he => h (Except.error.inj he)
    | Except.ok a, Except.ok b =>
        if h : a = b then Decidable.isTrue (congrArg Except.ok h)
        else Decidable.isFalse fun he => h (Except.ok.inj he)
    | Except.error _, Except.ok _ => Decidable.isFalse fun he => Except.noConfusion he
    | Except.ok _, Except.error _ => Decidable.isFalse fun he => Except.noConfusion he

/-! ### Generic helpers about strings and the state -/

theorem data_append (a b : String) : (a ++ b).data = a.data ++ b.data := by
  cases a
  cases b
  rfl

theorem charAt_append2 (pre mid : String) (i : Nat) (h : i < pre.data.length) :
    (pre ++ mid).data[i]? = pre.data[i]? := by
  rw [data_append, List.getElem?_append, if_pos h]

theorem charAt_append3 (pre mid post : String) (i : Nat) (h : i < pre.data.length) :
    (pre ++ mid ++ post).data[i]? = pre.data[i]? := by
  rw [data_append, data_append, List.append_assoc, List.getElem?_append, if_pos h]

theorem ne_of_charAt {s t : String} (i : Nat) (c d : Char)
    (hs : s.data[i]? = some c) (ht : t.data[i]? = some d) (hcd : c ≠ d) : s ≠ t := by
  intro he
  apply hcd
  rw [he] at hs
  rw [hs] at ht
  exact Option.some.inj ht

/-! ### Concrete oracles and states used by the witnesses -/

/-- A benign oracle environment whose duration probe always answers `d`. -/
def probeEnv (d : ℚ) : Env where
  tempEnv := ""
  cwd := ""
  uuid := fun _ => "u"
  mkdirResult := fun _ => Except.ok ()
  fetchResult := fun _ => Except.ok ⟨true, []⟩
  probeDuration := fun _ => Except.ok d
  execResult := fun _ => Except.ok ()
  readdir := fun _ => []

/-- The pristine state a job starts from. -/
def emptyJob : JobState := ⟨0, [], []⟩

/-! ### Claims -/

/-- C4: the diffusion-step resolver is a pure function (a Lean function of
its two arguments, by construction): with absent user input it returns 60 in
singing mode and 25 otherwise, and any present user value is returned
unchanged. -/
theorem diffusion_steps_resolver_spec :
    determineDiffusionSteps true none = 60 ∧
    determineDiffusionSteps false none = 25 ∧
    ∀ (singing : Bool) (v : Int), determineDiffusionSteps singing (some v) = v := by
  refine ⟨rfl, rfl, fun singing v => ?_⟩
  cases singing <;> rfl

/-- C7: for any probed file (source and target alike), a probed duration
strictly greater than the 30-second ceiling makes duration validation fail
with the `DurationExceeded` message, while a duration of at most 30 seconds
(in particular exactly 30) passes. -/
theorem duration_ceiling_check (env : Env) (filePath fileName : String)
    (st : JobState) (d : ℚ) (hp : env.probeDuration filePath = Except.ok d) :
    (30 < d → validateAudioDuration env filePath fileName st =
      ({ st with events := st.events ++ [Event.probe filePath] },
        Except.error ("The " ++ fileName ++
          " audio file exceeds the maximum duration of 30 seconds."))) ∧
    (d ≤ 30 → validateAudioDuration env filePath fileName st =
      ({ st with events := st.events ++ [Event.probe filePath] },
        Except.ok ())) := by
  constructor
  · intro h
    simp only [validateAudioDuration, getAudioDuration, hp, MAX_AUDIO_DURATION]
    rw [if_pos h]
  · intro h
    simp only [validateAudioDuration, getAudioDuration, hp, MAX_AUDIO_DURATION]
    rw [if_neg (not_lt.mpr h)]

/-- Witness for C7: a 31-second probe fails on the source label, a
30-second probe passes on the target label. -/
theorem duration_ceiling_check_witness :
    (validateAudioDuration (probeEnv 31) "f.wav" "source" emptyJob =
      ({ emptyJob with events := emptyJob.events ++ [Event.probe "f.wav"] },
        Except.error ("The " ++ "source" ++
          " audio file exceeds the maximum duration of 30 seconds."))) ∧
    (validateAudioDuration (probeEnv 30) "f.wav" "target" emptyJob =
      ({ emptyJob with events := emptyJob.events ++ [Event.probe "f.wav"] },
        Except.ok ())) :=
  ⟨(duration_ceiling_check (probeEnv 31) "f.wav" "source" emptyJob 31 rfl).1
      (by norm_num),
    (duration_ceiling_check (probeEnv 30) "f.wav" "target" emptyJob 30 rfl).2
      (le_refl 30)⟩

theorem extensionOk_eq (name : String) :
    extensionOk name = List.isSuffixOf ".wav".data (name.data.map Char.toLower) := by
  simp [extensionOk, VALID_AUDIO_EXTENSIONS]

/-- C6: an attachment (source or target) whose declared name, lowercased,
does not end in `.wav` makes option processing fail with the
`InvalidFormat` message, and the returned state is exactly the input state:
no fetch happened, so the failure precedes any download. -/
theorem invalid_extension_rejected_before_download (env : Env) (itx : Interaction)
    (tempDir : String) (st : JobState)
    (h : List.isSuffixOf ".wav".data (itx.source.name.data.map Char.toLower) = false ∨
         List.isSuffixOf ".wav".data (itx.target.name.data.map Char.toLower) = false) :
    processInteractionOptions env itx tempDir st =
      (st, Except.error "Invalid audio file format.") := by
  rcases h with h | h
  · have hs : extensionOk itx.source.name = false := (extensionOk_eq _).trans h
    simp [processInteractionOptions, validateAudioFile, hs]
  · have ht : extensionOk itx.target.name = false := (extensionOk_eq _).trans h
    cases hsv : extensionOk itx.source.name
    · simp [processInteractionOptions, validateAudioFile, hsv]
    · simp [processInteractionOptions, validateAudioFile, hsv, ht]

/-- Witness for C6: a `.mp3` source is rejected with the state untouched. -/
theorem invalid_extension_rejected_before_download_witness :
    processInteractionOptions (probeEnv 10)
        ⟨⟨"u1", "a.mp3"⟩, ⟨"u2", "b.wav"⟩, false, none, none⟩ "tmp" emptyJob =
      (emptyJob, Except.error "Invalid audio file format.") :=
  invalid_extension_rejected_before_download (probeEnv 10)
    ⟨⟨"u1", "a.mp3"⟩, ⟨"u2", "b.wav"⟩, false, none, none⟩ "tmp" emptyJob
    (Or.inl (by decide))

/-- C5: with singing mode off and a user-supplied nonzero semitone shift,
option processing fails with the `InvalidParameterCombination` message (the
shift is not silently defaulted or ignored); the extension hypotheses place
the request past the earlier per-file format checks. -/
theorem nonzero_shift_requires_singing (env : Env) (itx : Interaction)
    (tempDir : String) (st : JobState) (n : Int)
    (hsing : itx.singing = false) (hshift : itx.semiToneShift = some n) (hn : n ≠ 0)
    (hsrc : extensionOk itx.source.name = true)
    (htgt : extensionOk itx.target.name = true) :
    processInteractionOptions env itx tempDir st =
      (st, Except.error "Semi-tone shift can only be used with singing mode.") := by
  simp [processInteractionOptions, validateAudioFile, hsrc, htgt, hsing, hshift, hn]

/-- Witness for C5: singing off plus a shift of 3 is rejected. -/
theorem nonzero_shift_requires_singing_witness :
    processInteractionOptions (probeEnv 10)
        ⟨⟨"u1", "a.wav"⟩, ⟨"u2", "b.wav"⟩, false, none, some 3⟩ "tmp" emptyJob =
      (emptyJob, Except.error "Semi-tone shift can only be used with singing mode.") :=
  nonzero_shift_requires_singing (probeEnv 10)
    ⟨⟨"u1", "a.wav"⟩, ⟨"u2", "b.wav"⟩, false, none, some 3⟩ "tmp" emptyJob 3
    rfl rfl (by decide) (by decide) (by decide)

/-- An oracle whose `fetch` resolves with a non-success HTTP response
(`response.ok = false`, e.g. a 404) whose body is the single byte 7. -/
def nonSuccessEnv : Env where
  tempEnv := ""
  cwd := ""
  uuid := fun _ => "u"
  mkdirResult := fun _ => Except.ok ()
  fetchResult := fun _ => Except.ok ⟨false, [7]⟩
  probeDuration := fun _ => Except.ok 10
  execResult := fun _ => Except.ok ()
  readdir := fun _ => []

/-- Counterexample to C2: when the remote server answers with a non-success
status, `downloadFile` does not fail — it returns the local path and the
response body has been persisted into the workspace. -/
theorem download_persists_on_non_success :
    (downloadFile nonSuccessEnv "http://x" "tmp" "source" emptyJob).2 =
      Except.ok "tmp/source_u.wav" ∧
    ("tmp/source_u.wav", [7]) ∈
      (downloadFile nonSuccessEnv "http://x" "tmp" "source" emptyJob).1.fs := by
  constructor
  · decide
  · decide

/-- C2 amended: the fetch fails (propagating the rejection, the
`DownloadError`) exactly on network failure; a resolved response is never
inspected for its HTTP status, so on a non-success response the body is
persisted into the workspace and the download reports success. -/
theorem download_fetch_behavior (env : Env) (url dir pfx : String) (st : JobState) :
    (∀ e, env.fetchResult url = Except.error e →
      downloadFile env url dir pfx st =
        ({ st with events := st.events ++ [Event.fetchUrl url] },
          Except.error e)) ∧
    (∀ resp, env.fetchResult url = Except.ok resp →
      downloadFile env url dir pfx st =
        ({ st with
            uuidCount := st.uuidCount + 1,
            fs := st.fs ++
              [(pathJoin dir (pfx ++ "_" ++ env.uuid st.uuidCount ++ ".wav"),
                resp.body)],
            events := st.events ++ [Event.fetchUrl url,
              Event.writeFile
                (pathJoin dir (pfx ++ "_" ++ env.uuid st.uuidCount ++ ".wav"))] },
          Except.ok (pathJoin dir (pfx ++ "_" ++ env.uuid st.uuidCount ++ ".wav")))) := by
  constructor
  · intro e he
    simp [downloadFile, he]
  · intro resp hr
    simp [downloadFile, hr]

/-- Witness for the amended C2: a success response is written to the
workspace and its path returned. -/
theorem download_fetch_behavior_witness :
    downloadFile (probeEnv 10) "http://ok" "d" "target" emptyJob =
      ({ emptyJob with
          uuidCount := emptyJob.uuidCount + 1,
          fs := emptyJob.fs ++
            [(pathJoin "d" ("target" ++ "_" ++ (probeEnv 10).uuid emptyJob.uuidCount ++ ".wav"),
              (⟨true, []⟩ : FetchResponse).body)],
          events := emptyJob.events ++ [Event.fetchUrl "http://ok",
            Event.writeFile
              (pathJoin "d" ("target" ++ "_" ++ (probeEnv 10).uuid emptyJob.uuidCount ++ ".wav"))] },
        Except.ok (pathJoin "d" ("target" ++ "_" ++ (probeEnv 10).uuid emptyJob.uuidCount ++ ".wav"))) :=
  (download_fetch_behavior (probeEnv 10) "http://ok" "d" "target" emptyJob).2
    ⟨true, []⟩ rfl

/-- An oracle for a successful conversion run that leaves TWO `vc_`-prefixed
files in the workspace. -/
def multiOutputEnv : Env where
  tempEnv := ""
  cwd := ""
  uuid := fun _ => "u"
  mkdirResult := fun _ => Except.ok ()
  fetchResult := fun _ => Except.ok ⟨true, []⟩
  probeDuration := fun _ => Except.ok 10
  execResult := fun _ => Except.ok ()
  readdir := fun _ => ["vc_a.wav", "vc_b.wav"]

/-- Counterexample to C3: after a successful external-process run the
workspace holds two `vc_`-prefixed entries, yet `executeConversion` does not
treat this as an error — it succeeds with the first match. -/
theorem multiple_outputs_accepted :
    ((multiOutputEnv.readdir "tmp").filter startsWithVC).length = 2 ∧
    (executeConversion multiOutputEnv "cmd" "tmp" emptyJob).2 =
      Except.ok "tmp/vc_a.wav" := by
  constructor
  · decide
  · decide

theorem find_first_match {p : String → Bool} (pre : List String) (f : String)
    (rest : List String) (hpre : ∀ g ∈ pre, p g = false) (hf : p f = true) :
    List.find? p (pre ++ f :: rest) = some f := by
  induction pre with
  | nil => simpa using List.find?_cons_of_pos rest hf
  | cons a t ih =>
      rw [List.cons_append, List.find?_cons_of_neg]
      · exact ih fun g hg => hpre g (List.mem_cons_of_mem a hg)
      · simp [hpre a (List.mem_cons_self a t)]

/-- C3 amended: after a successful external-process run, zero `vc_`-prefixed
entries in the workspace is an error (`OutputNotFound`); when one or more
exist, the first matching directory entry is used and the job succeeds —
more than one match is not an error condition. -/
theorem output_lookup_behavior (env : Env) (cmd tempDir : String) (st : JobState)
    (hexec : env.execResult cmd = Except.ok ()) :
    ((∀ f ∈ env.readdir tempDir, startsWithVC f = false) →
      executeConversion env cmd tempDir st =
        ({ st with events := st.events ++ [Event.execCmd cmd] },
          Except.error "Output file not found.")) ∧
    (∀ pre f rest, env.readdir tempDir = pre ++ f :: rest →
      (∀ g ∈ pre, startsWithVC g = false) → startsWithVC f = true →
      executeConversion env cmd tempDir st =
        ({ st with events := st.events ++ [Event.execCmd cmd] },
          Except.ok (pathJoin tempDir f))) := by
  constructor
  · intro h
    have hn : List.find? startsWithVC (env.readdir tempDir) = none :=
      List.find?_eq_none.mpr fun x hx => by simp [h x hx]
    simp [executeConversion, hexec, hn]
  · intro pre f rest hl hpre hf
    have hsome : List.find? startsWithVC (env.readdir tempDir) = some f := by
      rw [hl]
      exact find_first_match pre f rest hpre hf
    simp [executeConversion, hexec, hsome]

/-- An oracle for a successful conversion run whose workspace listing has a
non-matching entry before the single `vc_`-prefixed output. -/
def singleOutputEnv : Env where
  tempEnv := ""
  cwd := ""
  uuid := fun _ => "u"
  mkdirResult := fun _ => Except.ok ()
  fetchResult := fun _ => Except.ok ⟨true, []⟩
  probeDuration := fun _ => Except.ok 10
  execResult := fun _ => Except.ok ()
  readdir := fun _ => ["log.txt", "vc_out.wav"]

/-- Witness for the amended C3: the first `vc_`-prefixed entry is located
after a successful run. -/
theorem output_lookup_behavior_witness :
    executeConversion singleOutputEnv "cmd" "tmp" emptyJob =
      ({ emptyJob with events := emptyJob.events ++ [Event.execCmd "cmd"] },
        Except.ok (pathJoin "tmp" "vc_out.wav")) :=
  (output_lookup_behavior singleOutputEnv "cmd" "tmp" emptyJob rfl).2
    ["log.txt"] "vc_out.wav" [] rfl (by decide) (by decide)

/-- C8: the assembled argument array always carries the source path, target
path, output directory, resolved step count and the two fixed numeric
arguments, and ends in exactly one of the two mode-dependent suffixes:
`--f0-condition true --semi-tone-shift <shift>` in singing mode (and never
the auto-adjust flag), or `--auto-f0-adjust true` otherwise (and never a
pitch-condition or semitone flag). -/
theorem conversion_command_flags (cwd sourcePath targetPath outputDir : String)
    (singing : Bool) (diffusionSteps semiToneShift : Int) :
    ∀ args, args = buildConversionArgs cwd sourcePath targetPath outputDir
        singing diffusionSteps semiToneShift →
      (("--source \"" ++ sourcePath ++ "\"") ∈ args ∧
        ("--target \"" ++ targetPath ++ "\"") ∈ args ∧
        ("--output \"" ++ outputDir ++ "\"") ∈ args ∧
        ("--diffusion-steps " ++ toString diffusionSteps) ∈ args ∧
        "--length-adjust 1.0" ∈ args ∧
        "--inference-cfg-rate 0.7" ∈ args) ∧
      (singing = true →
        "--f0-condition true" ∈ args ∧
        ("--semi-tone-shift " ++ toString semiToneShift) ∈ args ∧
        "--auto-f0-adjust true" ∉ args) ∧
      (singing = false →
        "--auto-f0-adjust true" ∈ args ∧
        "--f0-condition true" ∉ args ∧
        ∀ n : Int, ("--semi-tone-shift " ++ toString n) ∉ args) := by
  intro args hargs
  subst hargs
  cases singing
  · refine ⟨⟨?_, ?_, ?_, ?_, ?_, ?_⟩, fun h => absurd h (by simp), fun _ => ⟨?_, ?_, ?_⟩⟩
    · simp [buildConversionArgs]
    · simp [buildConversionArgs]
    · simp [buildConversionArgs]
    · simp [buildConversionArgs]
    · simp [buildConversionArgs]
    · simp [buildConversionArgs]
    · simp [buildConversionArgs]
    · intro hmem
      simp only [buildConversionArgs, Bool.false_eq_true, if_false, List.cons_append,
        List.nil_append, List.mem_cons, List.not_mem_nil, or_false] at hmem
      rcases hmem with h | h | h | h | h | h | h | h | h
      · exact absurd h (ne_of_charAt 0 '-' '\"' (by decide)
          ((charAt_append3 "\"" _ "\"" 0 (by decide)).trans (by decide)) (by decide))
      · exact absurd h (ne_of_charAt 0 '-' '\"' (by decide)
          ((charAt_append3 "\"" _ "\"" 0 (by decide)).trans (by decide)) (by decide))
      · exact absurd h (ne_of_charAt 2 'f' 's' (by decide)
          ((charAt_append3 "--source \"" _ "\"" 2 (by decide)).trans (by decide)) (by decide))
      · exact absurd h (ne_of_charAt 2 'f' 't' (by decide)
          ((charAt_append3 "--target \"" _ "\"" 2 (by decide)).trans (by decide)) (by decide))
      · exact absurd h (ne_of_charAt 2 'f' 'o' (by decide)
          ((charAt_append3 "--output \"" _ "\"" 2 (by decide)).trans (by decide)) (by decide))
      · exact absurd h (ne_of_charAt 2 'f' 'd' (by decide)
          ((charAt_append2 "--diffusion-steps " _ 2 (by decide)).trans (by decide)) (by decide))
      · exact absurd h (by decide)
      · exact absurd h (by decide)
      · exact absurd h (by decide)
    · intro n hmem
      simp only [buildConversionArgs, Bool.false_eq_true, if_false, List.cons_append,
        List.nil_append, List.mem_cons, List.not_mem_nil, or_false] at hmem
      rcases hmem with h | h | h | h | h | h | h | h | h
      · exact absurd h (ne_of_charAt 0 '-' '\"'
          ((charAt_append2 "--semi-tone-shift " _ 0 (by decide)).trans (by decide))
          ((charAt_append3 "\"" _ "\"" 0 (by decide)).trans (by decide)) (by decide))
      · exact absurd h (ne_of_charAt 0 '-' '\"'
          ((charAt_append2 "--semi-tone-shift " _ 0 (by decide)).trans (by decide))
          ((charAt_append3 "\"" _ "\"" 0 (by decide)).trans (by decide)) (by decide))
      · exact absurd h (ne_of_charAt 3 'e' 'o'
          ((charAt_append2 "--semi-tone-shift " _ 3 (by decide)).trans (by decide))
          ((charAt_append3 "--source \"" _ "\"" 3 (by decide)).trans (by decide)) (by decide))
      · exact absurd h (ne_of_charAt 2 's' 't'
          ((charAt_append2 "--semi-tone-shift " _ 2 (by decide)).trans (by decide))
          ((charAt_append3 "--target \"" _ "\"" 2 (by decide)).trans (by decide)) (by decide))
      · exact absurd h (ne_of_charAt 2 's' 'o'
          ((charAt_append2 "--semi-tone-shift " _ 2 (by decide)).trans (by decide))
          ((charAt_append3 "--output \"" _ "\"" 2 (by decide)).trans (by decide)) (by decide))
      · exact absurd h (ne_of_charAt 2 's' 'd'
          ((charAt_append2 "--semi-tone-shift " _ 2 (by decide)).trans (by decide))
          ((charAt_append2 "--diffusion-steps " _ 2 (by decide)).trans (by decide)) (by decide))
      · exact absurd h (ne_of_charAt 2 's' 'l'
          ((charAt_append2 "--semi-tone-shift " _ 2 (by decide)).trans (by decide))
          (by decide) (by decide))
      · exact absurd h (ne_of_charAt 2 's' 'i'
          ((charAt_append2 "--semi-tone-shift " _ 2 (by decide)).trans (by decide))
          (by decide) (by decide))
      · exact absurd h (ne_of_charAt 2 's' 'a'
          ((charAt_append2 "--semi-tone-shift " _ 2 (by decide)).trans (by decide))
          (by decide) (by decide))
  · refine ⟨⟨?_, ?_, ?_, ?_, ?_, ?_⟩, fun _ => ⟨?_, ?_, ?_⟩, fun h => absurd h (by simp)⟩
    · simp [buildConversionArgs]
    · simp [buildConversionArgs]
    · simp [buildConversionArgs]
    · simp [buildConversionArgs]
    · simp [buildConversionArgs]
    · simp [buildConversionArgs]
    · simp [buildConversionArgs]
    · simp [buildConversionArgs]
    · intro hmem
      simp only [buildConversionArgs, if_true, List.cons_append,
        List.nil_append, List.mem_cons, List.not_mem_nil, or_false] at hmem
      rcases hmem with h | h | h | h | h | h | h | h | h | h
      · exact absurd h (ne_of_charAt 0 '-' '\"' (by decide)
          ((charAt_append3 "\"" _ "\"" 0 (by decide)).trans (by decide)) (by decide))
      · exact absurd h (ne_of_charAt 0 '-' '\"' (by decide)
          ((charAt_append3 "\"" _ "\"" 0 (by decide)).trans (by decide)) (by decide))
      · exact absurd h (ne_of_charAt 2 'a' 's' (by decide)
          ((charAt_append3 "--source \"" _ "\"" 2 (by decide)).trans (by decide)) (by decide))
      · exact absurd h (ne_of_charAt 2 'a' 't' (by decide)
          ((charAt_append3 "--target \"" _ "\"" 2 (by decide)).trans (by decide)) (by decide))
      · exact absurd h (ne_of_charAt 2 'a' 'o' (by decide)
          ((charAt_append3 "--output \"" _ "\"" 2 (by decide)).trans (by decide)) (by decide))
      · exact absurd h (ne_of_charAt 2 'a' 'd' (by decide)
          ((charAt_append2 "--diffusion-steps " _ 2 (by decide)).trans (by decide)) (by decide))
      · exact absurd h (by decide)
      · exact absurd h (by decide)
      · exact absurd h (by decide)
      · exact absurd h (ne_of_charAt 2 'a' 's' (by decide)
          ((charAt_append2 "--semi-tone-shift " _ 2 (by decide)).trans (by decide)) (by decide))

/-- Witness for C8: both modes at concrete inputs; the singing-mode
command carries the pitch flags and not the auto flag, and conversely. -/
theorem conversion_command_flags_witness :
    ("--f0-condition true" ∈
        buildConversionArgs "c" "s.wav" "t.wav" "o" true 60 3 ∧
      ("--semi-tone-shift " ++ toString (3 : Int)) ∈
        buildConversionArgs "c" "s.wav" "t.wav" "o" true 60 3 ∧
      "--auto-f0-adjust true" ∉
        buildConversionArgs "c" "s.wav" "t.wav" "o" true 60 3) ∧
    ("--auto-f0-adjust true" ∈
        buildConversionArgs "c" "s.wav" "t.wav" "o" false 25 0 ∧
      "--f0-condition true" ∉
        buildConversionArgs "c" "s.wav" "t.wav" "o" false 25 0) :=
  ⟨(conversion_command_flags "c" "s.wav" "t.wav" "o" true 60 3 _ rfl).2.1 rfl,
    ⟨((conversion_command_flags "c" "s.wav" "t.wav" "o" false 25 0 _ rfl).2.2 rfl).1,
      ((conversion_command_flags "c" "s.wav" "t.wav" "o" false 25 0 _ rfl).2.2 rfl).2.1⟩⟩

/-- C10: with well-formed options (valid extensions, allowed shift/mode
combination) and both fetches succeeding, the job downloads the source, then
the target, and only then probes durations, source first: an over-long
source is only detected after the target download (both files are in the
workspace when the job fails), and when the source passes, the target probe
follows both downloads. -/
theorem downloads_precede_duration_checks (env : Env) (itx : Interaction)
    (tempDir : String) (st0 : JobState) (r1 r2 : FetchResponse)
    (hsrc : extensionOk itx.source.name = true)
    (htgt : extensionOk itx.target.name = true)
    (hcross : itx.singing = true ∨ itx.semiToneShift.getD 0 = 0)
    (hf1 : env.fetchResult itx.source.url = Except.ok r1)
    (hf2 : env.fetchResult itx.target.url = Except.ok r2) :
    (∀ d : ℚ,
      env.probeDuration
        (pathJoin tempDir ("source" ++ "_" ++ env.uuid st0.uuidCount ++ ".wav")) =
        Except.ok d →
      30 < d →
      processInteractionOptions env itx tempDir st0 =
        ({ st0 with
            uuidCount := st0.uuidCount + 1 + 1,
            fs := st0.fs ++
              [(pathJoin tempDir ("source" ++ "_" ++ env.uuid st0.uuidCount ++ ".wav"),
                r1.body),
                (pathJoin tempDir ("target" ++ "_" ++ env.uuid (st0.uuidCount + 1) ++ ".wav"),
                r2.body)],
            events := st0.events ++
              [Event.fetchUrl itx.source.url,
                Event.writeFile
                  (pathJoin tempDir ("source" ++ "_" ++ env.uuid st0.uuidCount ++ ".wav")),
                Event.fetchUrl itx.target.url,
                Event.writeFile
                  (pathJoin tempDir ("target" ++ "_" ++ env.uuid (st0.uuidCount + 1) ++ ".wav")),
                Event.probe
                  (pathJoin tempDir ("source" ++ "_" ++ env.uuid st0.uuidCount ++ ".wav"))] },
          Except.error "The source audio file exceeds the maximum duration of 30 seconds.")) ∧
    (∀ d : ℚ,
      env.probeDuration
        (pathJoin tempDir ("source" ++ "_" ++ env.uuid st0.uuidCount ++ ".wav")) =
        Except.ok d →
      d ≤ 30 →
      (processInteractionOptions env itx tempDir st0).1.events =
        st0.events ++
          [Event.fetchUrl itx.source.url,
            Event.writeFile
              (pathJoin tempDir ("source" ++ "_" ++ env.uuid st0.uuidCount ++ ".wav")),
            Event.fetchUrl itx.target.url,
            Event.writeFile
              (pathJoin tempDir ("target" ++ "_" ++ env.uuid (st0.uuidCount + 1) ++ ".wav")),
            Event.probe
              (pathJoin tempDir ("source" ++ "_" ++ env.uuid st0.uuidCount ++ ".wav")),
            Event.probe
              (pathJoin tempDir ("target" ++ "_" ++ env.uuid (st0.uuidCount + 1) ++ ".wav"))]) := by
  have hb : (!itx.singing && (itx.semiToneShift.getD 0 != 0)) = false := by
    rcases hcross with h | h <;> simp [h]
  constructor
  · intro d hp hd
    simp only [processInteractionOptions, validateAudioFile, hsrc, if_true,
      htgt, hb, Bool.false_eq_true, if_false, downloadFile, hf1, hf2,
      validateAudioDuration, getAudioDuration, hp, MAX_AUDIO_DURATION]
    rw [if_pos hd]
    simp [List.append_assoc]
  · intro d hp hd
    simp only [processInteractionOptions, validateAudioFile, hsrc, if_true,
      htgt, hb, Bool.false_eq_true, if_false, downloadFile, hf1, hf2,
      validateAudioDuration, getAudioDuration, hp, MAX_AUDIO_DURATION]
    rw [if_neg (not_lt.mpr hd)]
    cases hq : env.probeDuration
        (pathJoin tempDir ("target" ++ "_" ++ env.uuid (st0.uuidCount + 1) ++ ".wav")) with
    | error e => simp [hq, List.append_assoc]
    | ok d2 =>
        simp only [hq]
        by_cases h2 : (30 : ℚ) < d2
        · rw [if_pos h2]
          simp [List.append_assoc]
        · rw [if_neg h2]
          simp [List.append_assoc]

/-- An oracle whose fetches both succeed and whose duration probe always
answers 31 seconds. -/
def overLongEnv : Env where
  tempEnv := ""
  cwd := ""
  uuid := fun n => toString n
  mkdirResult := fun _ => Except.ok ()
  fetchResult := fun _ => Except.ok ⟨true, [1]⟩
  probeDuration := fun _ => Except.ok 31
  execResult := fun _ => Except.ok ()
  readdir := fun _ => []

/-- A well-formed interaction: two `.wav` attachments, singing off, no
optional values. -/
def wfInteraction : Interaction :=
  ⟨⟨"u1", "a.wav"⟩, ⟨"u2", "b.wav"⟩, false, none, none⟩

/-- Witness for C10: with a 31-second source, the job still downloads the
target before failing on the source duration. -/
theorem downloads_precede_duration_checks_witness :
    processInteractionOptions overLongEnv wfInteraction "tmp" emptyJob =
      ({ emptyJob with
          uuidCount := emptyJob.uuidCount + 1 + 1,
          fs := emptyJob.fs ++
            [(pathJoin "tmp" ("source" ++ "_" ++ overLongEnv.uuid emptyJob.uuidCount ++ ".wav"),
              (⟨true, [1]⟩ : FetchResponse).body),
              (pathJoin "tmp" ("target" ++ "_" ++ overLongEnv.uuid (emptyJob.uuidCount + 1) ++ ".wav"),
              (⟨true, [1]⟩ : FetchResponse).body)],
          events := emptyJob.events ++
            [Event.fetchUrl wfInteraction.source.url,
              Event.writeFile
                (pathJoin "tmp" ("source" ++ "_" ++ overLongEnv.uuid emptyJob.uuidCount ++ ".wav")),
              Event.fetchUrl wfInteraction.target.url,
              Event.writeFile
                (pathJoin "tmp" ("target" ++ "_" ++ overLongEnv.uuid (emptyJob.uuidCount + 1) ++ ".wav")),
              Event.probe
                (pathJoin "tmp" ("source" ++ "_" ++ overLongEnv.uuid emptyJob.uuidCount ++ ".wav"))] },
        Except.error "The source audio file exceeds the maximum duration of 30 seconds.") :=
  (downloads_precede_duration_checks overLongEnv wfInteraction "tmp" emptyJob
      ⟨true, [1]⟩ ⟨true, [1]⟩ (by decide) (by decide) (Or.inr rfl) rfl rfl).1
    31 rfl (by norm_num)

theorem pathJoin_ne_empty (a b : String) : pathJoin a b ≠ "" := by
  intro h
  have hd := congrArg String.data h
  rw [pathJoin, data_append, data_append] at hd
  have hs : "/".data = ['/'] := rfl
  have h0 : ("" : String).data = [] := rfl
  rw [hs, h0] at hd
  simp at hd

theorem cleanup_removes_all (dir : String) (hdir : dir ≠ "") (st : JobState) :
    (∀ f ∈ (cleanupTempDir dir st).fs, underDir dir f.1 = false) ∧
    Event.removeDir dir ∈ (cleanupTempDir dir st).events := by
  rw [cleanupTempDir, if_pos hdir]
  constructor
  · intro f hf
    have hp := (List.mem_filter.mp hf).2
    simpa using hp
  · simp

/-- C1: whenever workspace creation succeeds, `execute` runs the teardown on
that workspace on every exit path (success or failure at any stage): the
removal event for the created directory is always in the job's trace, no
filesystem entry under the workspace survives the job, and the
`force`-mode removal is total — on a state with nothing under the path
(an already-absent tree) it returns normally leaving the filesystem
untouched. -/
theorem workspace_always_removed (env : Env) (itx : Interaction) (st0 : JobState)
    (hmk : env.mkdirResult (tempDirName env st0) = Except.ok ()) :
    Event.removeDir (tempDirName env st0) ∈ (execute env itx st0).1.events ∧
    (∀ f ∈ (execute env itx st0).1.fs, underDir (tempDirName env st0) f.1 = false) ∧
    (∀ dir st, (∀ f ∈ st.fs, underDir dir f.1 = false) →
      (cleanupTempDir dir st).fs = st.fs) := by
  have hne : tempDirName env st0 ≠ "" := pathJoin_ne_empty _ _
  have hcr : createTempDir env st0 =
      ({ st0 with
          uuidCount := st0.uuidCount + 1,
          events := st0.events ++ [Event.mkdirAttempt (tempDirName env st0)] },
        Except.ok (tempDirName env st0)) := by
    simp [createTempDir, hmk]
  have hmain : ∃ st2, (execute env itx st0).1 =
      cleanupTempDir (tempDirName env st0) st2 := by
    simp only [execute, hcr]
    cases hrp : runPipeline env itx (tempDirName env st0)
        { st0 with
          uuidCount := st0.uuidCount + 1,
          events := st0.events ++ [Event.mkdirAttempt (tempDirName env st0)] } with
    | mk st2 r =>
      cases r with
      | error e2 => exact ⟨st2, rfl⟩
      | ok out => exact ⟨st2, rfl⟩
  obtain ⟨st2, h2⟩ := hmain
  refine ⟨?_, ?_, ?_⟩
  · rw [h2]
    exact (cleanup_removes_all _ hne st2).2
  · rw [h2]
    exact (cleanup_removes_all _ hne st2).1
  · intro dir st h
    rw [cleanupTempDir]
    by_cases hd : dir = ""
    · rw [if_neg (by simp [hd])]
    · rw [if_pos hd]
      show st.fs.filter (fun f => !underDir dir f.1) = st.fs
      refine List.filter_eq_self.mpr ?_
      intro f hf
      simp [h f hf]

/-- A fully successful oracle environment: fetches succeed, the probe
answers 10 seconds, the external process succeeds and leaves one
`vc_`-prefixed output in the workspace. -/
def happyEnv : Env where
  tempEnv := ""
  cwd := "C:"
  uuid := fun n => toString n
  mkdirResult := fun _ => Except.ok ()
  fetchResult := fun _ => Except.ok ⟨true, [1]⟩
  probeDuration := fun _ => Except.ok 10
  execResult := fun _ => Except.ok ()
  readdir := fun _ => ["vc_out.wav"]

/-- Witness for C1: on a fully successful job the teardown of the created
workspace is in the trace. -/
theorem workspace_always_removed_witness :
    Event.removeDir (tempDirName happyEnv emptyJob) ∈
      (execute happyEnv wfInteraction emptyJob).1.events :=
  (workspace_always_removed happyEnv wfInteraction emptyJob rfl).1

/-- C9: when workspace creation itself fails, the job ends with the mkdir
error and its only recorded effect is the mkdir attempt — `tempDir` still
holds its initial falsy `''`, for which `cleanupTempDir` is a no-op, so
teardown never attempts to remove any path the job did not create (the
filesystem component of the final state is exactly `st0.fs`). -/
theorem mkdir_failure_skips_teardown (env : Env) (itx : Interaction)
    (st0 : JobState) (e : String)
    (hmk : env.mkdirResult (tempDirName env st0) = Except.error e) :
    execute env itx st0 =
      ({ st0 with
          uuidCount := st0.uuidCount + 1,
          events := st0.events ++ [Event.mkdirAttempt (tempDirName env st0)] },
        Reply.failure e) ∧
    (∀ st, cleanupTempDir "" st = st) := by
  constructor
  · simp [execute, createTempDir, hmk, cleanupTempDir]
  · intro st
    rw [cleanupTempDir, if_neg (by simp)]

/-- An oracle environment where creating the workspace directory throws. -/
def mkdirFailEnv : Env where
  tempEnv := ""
  cwd := ""
  uuid := fun _ => "u"
  mkdirResult := fun _ => Except.error "EACCES: permission denied"
  fetchResult := fun _ => Except.ok ⟨true, []⟩
  probeDuration := fun _ => Except.ok 10
  execResult := fun _ => Except.ok ()
  readdir := fun _ => []

/-- Witness for C9: a failing mkdir ends the job with only the attempt
recorded and the filesystem untouched. -/
theorem mkdir_failure_skips_teardown_witness :
    execute mkdirFailEnv wfInteraction emptyJob =
      ({ emptyJob with
          uuidCount := emptyJob.uuidCount + 1,
          events := emptyJob.events ++
            [Event.mkdirAttempt (tempDirName mkdirFailEnv emptyJob)] },
        Reply.failure "EACCES: permission denied") :=
  (mkdir_failure_skips_teardown mkdirFailEnv wfInteraction emptyJob
    "EACCES: permission denied" rfl).1

end UsadaVC
